import Mathlib

/-!
Verification of the score-webhook ingestion and grade-reconciliation core of
the h5p-integration-kit repository.

The embedding follows the two single-file instances that implement the core:
the PHP instance (`handleCallback` / `handleWebhook` with PDO/SQLite) and the
.NET 8 minimal-API instance (`MapGet "/callback"` / `MapPost "/webhook"` with
Microsoft.Data.Sqlite and System.Text.Json).  The two SQLite tables
`h5p_content` and `h5p_grades` are modelled as lists of rows plus the
AUTOINCREMENT counters; `CURRENT_TIMESTAMP` is modelled by an explicit time
argument threaded into each operation.  JSON numbers are modelled as exact
rationals (`ℚ`); JSON decoding is modelled by its result (the typed payload
below mirrors the .NET `WebhookPayload`/`XApiStatement`/`XApiResult`/
`XApiScore` records, with `Option` for every field the source treats as
optional), since every claim is about how the handler uses the decoded value.
-/

namespace H5P

/-- A row of the `h5p_content` table:
`id INTEGER PRIMARY KEY AUTOINCREMENT, h5p_id TEXT UNIQUE NOT NULL,
 title TEXT, created_at TIMESTAMP DEFAULT CURRENT_TIMESTAMP`. -/
structure ContentRow where
  id : Nat
  h5pId : String
  title : String
  createdAt : Nat
deriving Repr, DecidableEq

/-- A row of the `h5p_grades` table:
`id INTEGER PRIMARY KEY AUTOINCREMENT, content_id INTEGER REFERENCES
 h5p_content(id), user_id TEXT NOT NULL, score REAL, max_score REAL,
 completed INTEGER DEFAULT 0, xapi_verb TEXT, created_at TIMESTAMP`. -/
structure GradeRow where
  id : Nat
  contentId : Nat
  userId : String
  score : ℚ
  maxScore : ℚ
  completed : Bool
  xapiVerb : String
  createdAt : Nat
deriving Repr, DecidableEq

/-- The SQLite database: the two tables and their AUTOINCREMENT counters. -/
structure Db where
  content : List ContentRow
  grades : List GradeRow
  nextContentId : Nat
  nextGradeId : Nat
deriving Repr, DecidableEq

/-- The empty database produced by `initDb` / `InitializeDatabase`
(SQLite AUTOINCREMENT starts at 1). -/
def Db.empty : Db := ⟨[], [], 1, 1⟩

/-- The `UNIQUE` constraint on `h5p_content.h5p_id`: every database SQLite
ever hands back satisfies it. -/
def Db.uniqueContentIds (db : Db) : Prop :=
  (db.content.map ContentRow.h5pId).Nodup

instance (db : Db) : Decidable db.uniqueContentIds :=
  List.nodupDecidable _

/-- Number of `h5p_content` rows carrying a given external id. -/
def Db.countContent (db : Db) (extId : String) : Nat :=
  (db.content.filter (fun r => r.h5pId = extId)).length

/-- `SELECT id FROM h5p_content WHERE h5p_id = ?` (both instances). -/
def resolveContent (db : Db) (extId : String) : Option ContentRow :=
  db.content.find? (fun r => r.h5pId = extId)

/-- `SELECT * FROM h5p_content WHERE id = ?` (used by the grades page). -/
def contentById (db : Db) (localId : Nat) : Option ContentRow :=
  db.content.find? (fun r => r.id = localId)

/-- The per-row effect of the `DO UPDATE SET title = excluded.title` clause:
the conflicting row gets the new title, every other row is untouched. -/
def retitle (extId title : String) (r : ContentRow) : ContentRow :=
  if r.h5pId = extId then { r with title := title } else r

/-- `INSERT INTO h5p_content (h5p_id, title) VALUES (?, ?)
     ON CONFLICT(h5p_id) DO UPDATE SET title = excluded.title`
(identical SQL in the PHP and .NET instances).  On conflict the existing
row keeps its `id` and `created_at`; only `title` is overwritten.  The
statement is a single atomic SQLite step, which the embedding reflects by
making it one transition. -/
def upsertContent (extId title : String) (t : Nat) (db : Db) : Db :=
  if db.content.any (fun r => r.h5pId = extId) then
    { db with content := db.content.map (retitle extId title) }
  else
    { db with
        content := db.content ++ [⟨db.nextContentId, extId, title, t⟩],
        nextContentId := db.nextContentId + 1 }

/-- PHP truthiness of a query-parameter string, as tested by
`if ($contentId)` in `handleCallback`: the empty string and `"0"` are
falsy, every other string is truthy. -/
def phpTruthy (s : String) : Bool :=
  s ≠ "" && s ≠ "0"

/-- `handleCallback` (PHP) / `MapGet "/callback"` (.NET): read the optional
`contentId` and `title` query parameters, upsert when `contentId` is
present and truthy, and always respond with the "Content saved!" success
page (HTTP 200).  The returned `Nat` is the HTTP status code, and the
returned `Bool` records whether the success page was sent (it always is). -/
def handleCallback (contentId title : Option String) (t : Nat) (db : Db) :
    Db × Nat × Bool :=
  match contentId with
  | none => (db, 200, true)
  | some cid =>
    if phpTruthy cid then
      (upsertContent cid (title.getD "Untitled") t db, 200, true)
    else
      (db, 200, true)

/-- `XApiScore` (`{"raw": <number>, "max": <number>}`), every field optional
in the wire format. -/
structure XApiScore where
  raw : Option ℚ
  max : Option ℚ
deriving Repr, DecidableEq

/-- `XApiResult` (`{"score": ..., "completion": <bool>, "success": <bool>}`). -/
structure XApiResult where
  score : Option XApiScore
  completion : Option Bool
  success : Option Bool
deriving Repr, DecidableEq

/-- `XApiVerb` (`{"id": <URI>}`). -/
structure XApiVerb where
  id : Option String
deriving Repr, DecidableEq

/-- `XApiStatement` (`{"verb": ..., "result": ...}`). -/
structure XApiStatement where
  verb : Option XApiVerb
  result : Option XApiResult
deriving Repr, DecidableEq

/-- The webhook payload: `contentId` (required by the handler, but possibly
absent from the body), `userId` and `statement` optional. -/
structure WebhookPayload where
  contentId : Option String
  userId : Option String
  statement : Option XApiStatement
deriving Repr, DecidableEq

/-- The substring after the final `/` of a string (the whole string when it
has no `/`).  This is exactly `.Split('/').LastOrDefault() ?? ""` in the
.NET instance, and the last path segment of a URI that does not end in a
slash. -/
def lastSegment (s : String) : String :=
  String.mk ((s.data.reverse.takeWhile (fun c => c ≠ '/')).reverse)

/-- PHP `basename` on a URI (no suffix argument): trailing slashes are
stripped first, then the component after the final remaining `/` is
returned. -/
def phpBasename (s : String) : String :=
  lastSegment (String.mk ((s.data.reverse.dropWhile (fun c => c = '/')).reverse))

/-- The guarded percentage `maxScore > 0 ? rawScore / maxScore : 0`
computed by both webhook handlers for the acknowledgement body (and by the
grades pages for display).  On `ℚ` it is total: the division is only taken
under the guard `0 < max`, so no division by zero is ever evaluated and no
NaN can arise. -/
def percentage (raw max : ℚ) : ℚ :=
  if max > 0 then raw / max else 0

/-- The four responses the webhook handlers produce. -/
inductive WebhookResponse where
  | methodNotAllowed
  | invalidPayload
  | contentNotFound
  | saved (contentId : String) (score : ℚ)
deriving Repr, DecidableEq

/-- HTTP status code of each webhook response. -/
def WebhookResponse.status : WebhookResponse → Nat
  | .methodNotAllowed => 405
  | .invalidPayload => 400
  | .contentNotFound => 404
  | .saved _ _ => 200

/-- The `error` field of the structured JSON error body, `none` on the
success body `{"status":"saved",...}`. -/
def WebhookResponse.errorBody : WebhookResponse → Option String
  | .methodNotAllowed => some "Method not allowed"
  | .invalidPayload => some "Invalid payload"
  | .contentNotFound => some "Content not found"
  | .saved _ _ => none

/-- `$result = $statement['result'] ?? []` — the optional chain down to the
xAPI result object (`data.Statement?.Result` in .NET). -/
def extractResult (p : WebhookPayload) : Option XApiResult :=
  p.statement.bind XApiStatement.result

/-- `$scoreData = $result['score'] ?? []` (`...?.Score` in .NET). -/
def extractScoreData (p : WebhookPayload) : Option XApiScore :=
  (extractResult p).bind XApiResult.score

/-- `$rawScore = $scoreData['raw'] ?? 0` (`...?.Raw ?? 0` in .NET). -/
def extractRaw (p : WebhookPayload) : ℚ :=
  ((extractScoreData p).bind XApiScore.raw).getD 0

/-- `$maxScore = $scoreData['max'] ?? 100` (`...?.Max ?? 100` in .NET). -/
def extractMax (p : WebhookPayload) : ℚ :=
  ((extractScoreData p).bind XApiScore.max).getD 100

/-- `$completed = $result['completion'] ?? false`
(`...?.Completion ?? false` in .NET). -/
def extractCompleted (p : WebhookPayload) : Bool :=
  ((extractResult p).bind XApiResult.completion).getD false

/-- `$statement['verb']['id']` / `data.Statement?.Verb?.Id`: the optional
verb URI. -/
def extractVerbId (p : WebhookPayload) : Option String :=
  (p.statement.bind XApiStatement.verb).bind XApiVerb.id

/-- `$userId = $data['userId'] ?? 'anonymous'`. -/
def extractUserId (p : WebhookPayload) : String :=
  p.userId.getD "anonymous"

/-- The row the PHP handler's
`INSERT INTO h5p_grades (content_id, user_id, score, max_score, completed,
 xapi_verb)` writes: verb is `basename($statement['verb']['id'] ?? '')`. -/
def insertedGrade (p : WebhookPayload) (c : ContentRow) (gid t : Nat) :
    GradeRow :=
  ⟨gid, c.id, extractUserId p, extractRaw p, extractMax p, extractCompleted p,
   phpBasename ((extractVerbId p).getD ""), t⟩

/-- `handleWebhook` (PHP).  `body = none` models `json_decode` returning a
falsy value (malformed JSON, or a body that decodes to `null`/`false`/`0`/
`""`/`[]`), which the source rejects with `!$data`; a decoded object is the
typed payload, with `contentId = none` when `isset($data['contentId'])`
fails.  Each `?? default` of the source becomes `Option.getD` inside the
`extract...` definitions above, and `basename` becomes `phpBasename`. -/
def handleWebhook (method : String) (body : Option WebhookPayload) (t : Nat)
    (db : Db) : Db × WebhookResponse :=
  if method ≠ "POST" then (db, .methodNotAllowed)
  else
    match body with
    | none => (db, .invalidPayload)
    | some data =>
      match data.contentId with
      | none => (db, .invalidPayload)
      | some contentId =>
        match resolveContent db contentId with
        | none => (db, .contentNotFound)
        | some content =>
          (({ db with
              grades := db.grades ++
                [insertedGrade data content db.nextGradeId t],
              nextGradeId := db.nextGradeId + 1 }),
           .saved contentId
             (if extractMax data > 0 then extractRaw data / extractMax data
              else 0))

/-- The failure mode of `JsonSerializer.Deserialize` in the .NET instance:
malformed JSON throws a `JsonException`. -/
inductive JsonError where
  | malformed
deriving Repr, DecidableEq

/-- The value `ExecuteScalar()` hands back for
`SELECT id FROM h5p_content WHERE h5p_id = @id` in the .NET instance:
null when no row matches, otherwise the first column of the first row —
which for a SQLite `INTEGER` column Microsoft.Data.Sqlite returns as a
boxed `long`. -/
inductive SqlScalar where
  | nullScalar
  | longScalar (v : Nat)
deriving Repr, DecidableEq

/-- `cmd.ExecuteScalar()` for the content lookup of the .NET webhook. -/
def executeScalarContentId (db : Db) (cid : String) : SqlScalar :=
  match resolveContent db cid with
  | none => .nullScalar
  | some c => .longScalar c.id

/-- The C# cast `ExecuteScalar() as int?` of the .NET webhook: `as`
unboxes only the exact value type, and the scalar is either null or a
boxed `long` — never a boxed `int` — so the cast yields null whether or
not a row matched. -/
def scalarAsIntNullable : SqlScalar → Option Nat
  | .nullScalar => none
  | .longScalar _ => none

/-- `MapPost "/webhook"` (.NET).  The deserializer result is either a thrown
`JsonException` (`Except.error`, for malformed JSON), `ok none` (the body
`"null"`), or a typed payload.  The handler body contains no try/catch, so
a deserialization error escapes the handler — the embedding propagates it
as `Except.error` — and the framework, not the handler, turns it into a
500 response.  `data.ContentId` null or empty is rejected
(`string.IsNullOrEmpty`); the `??` defaulting, `Split('/').LastOrDefault()`
verb extraction, insert statement and acknowledgement mirror the source.
The content lookup is `ExecuteScalar() as int?`, which always yields null
(the boxed `long` defeats the `as int?` unboxing), so every validated
delivery falls into the 404 branch and the insert/acknowledgement branch
is dead code — kept here because the source keeps it. -/
def dotnetHandleWebhook (parsed : Except JsonError (Option WebhookPayload))
    (t : Nat) (db : Db) : Except JsonError (Db × WebhookResponse) :=
  match parsed with
  | .error e => .error e
  | .ok data =>
    match data with
    | none => .ok (db, .invalidPayload)
    | some d =>
      match d.contentId with
      | none => .ok (db, .invalidPayload)
      | some contentId =>
        if contentId = "" then .ok (db, .invalidPayload)
        else
          match scalarAsIntNullable (executeScalarContentId db contentId) with
          | none => .ok (db, .contentNotFound)
          | some contentDbId =>
            .ok ({ db with
                    grades := db.grades ++
                      [⟨db.nextGradeId, contentDbId, extractUserId d,
                        extractRaw d, extractMax d, extractCompleted d,
                        lastSegment ((extractVerbId d).getD ""), t⟩],
                    nextGradeId := db.nextGradeId + 1 },
                 .saved contentId
                   (if extractMax d > 0 then extractRaw d / extractMax d
                    else 0))

/-- `SELECT * FROM h5p_grades WHERE content_id = ? ORDER BY created_at DESC`
(the read-back used by the grades pages; a pure read, it never writes). -/
def gradesForContent (db : Db) (localId : Nat) : List GradeRow :=
  ((db.grades.filter (fun g => g.contentId = localId)).mergeSort
    (fun a b => b.createdAt ≤ a.createdAt))

/-! Sample fixtures used by the witnesses and counterexamples -/

/-- A database holding one registered content record, `"abc123"`. -/
def dbOne : Db :=
  ⟨[⟨1, "abc123", "My Quiz", 0⟩], [], 2, 1⟩

/-- The end-to-end sample payload of the spec: content `"abc123"`, user
`"u1"`, verb `".../completed"`, raw 8, max 10, completion true. -/
def payloadFull : WebhookPayload :=
  ⟨some "abc123", some "u1",
   some ⟨some ⟨some "http://adlnet.gov/expapi/verbs/completed"⟩,
         some ⟨some ⟨some 8, some 10⟩, some true, none⟩⟩⟩

/-- A payload whose `contentId` resolves nowhere. -/
def payloadUnknown : WebhookPayload :=
  ⟨some "nonexistent-id", some "u1", none⟩

/-- A bare payload: `contentId` only, everything else absent. -/
def payloadBare : WebhookPayload :=
  ⟨some "abc123", none, none⟩

/-- A payload with no `contentId` field. -/
def payloadNoContent : WebhookPayload :=
  ⟨none, some "u1", none⟩

/-- A payload whose score exceeds its maximum: raw 2, max 1. -/
def payloadOverMax : WebhookPayload :=
  ⟨some "abc123", some "u1", some ⟨none, some ⟨some ⟨some 2, some 1⟩, none, none⟩⟩⟩

/-! Helper lemmas -/

theorem retitle_h5pId (e ti : String) (r : ContentRow) :
    (retitle e ti r).h5pId = r.h5pId := by
  unfold retitle; split <;> rfl

theorem retitle_id (e ti : String) (r : ContentRow) :
    (retitle e ti r).id = r.id := by
  unfold retitle; split <;> rfl

theorem retitle_createdAt (e ti : String) (r : ContentRow) :
    (retitle e ti r).createdAt = r.createdAt := by
  unfold retitle; split <;> rfl

theorem map_retitle_h5pId (e ti : String) (l : List ContentRow) :
    (l.map (retitle e ti)).map ContentRow.h5pId = l.map ContentRow.h5pId := by
  induction l with
  | nil => rfl
  | cons a tl ih => simp [retitle_h5pId, ih]

theorem filter_map_retitle (e ti : String) (l : List ContentRow) :
    (l.map (retitle e ti)).filter (fun r => r.h5pId = e) =
      (l.filter (fun r => r.h5pId = e)).map (retitle e ti) := by
  induction l with
  | nil => rfl
  | cons a tl ih =>
    by_cases h : a.h5pId = e <;>
      simp [List.filter_cons, retitle_h5pId, h, ih]

theorem filter_singleton_of_nodup (e : String) (l : List ContentRow)
    (hu : (l.map ContentRow.h5pId).Nodup)
    (ha : l.any (fun r => r.h5pId = e) = true) :
    ∃ r, l.filter (fun r => r.h5pId = e) = [r] ∧ r.h5pId = e := by
  induction l with
  | nil => simp at ha
  | cons a tl ih =>
    rw [List.map_cons, List.nodup_cons] at hu
    by_cases h : a.h5pId = e
    · refine ⟨a, ?_, h⟩
      have htl : tl.filter (fun r => r.h5pId = e) = [] := by
        rw [List.filter_eq_nil_iff]
        intro b hb hbe
        exact hu.1 (h ▸ (by simpa using hbe) ▸ List.mem_map_of_mem ContentRow.h5pId hb)
      simp [List.filter_cons, h, htl]
    · have ha' : tl.any (fun r => r.h5pId = e) = true := by
        rcases List.any_eq_true.mp ha with ⟨x, hx, hxe⟩
        rcases List.mem_cons.mp hx with rfl | hx'
        · exact absurd (by simpa using hxe) h
        · exact List.any_eq_true.mpr ⟨x, hx', hxe⟩
      rcases ih hu.2 ha' with ⟨r, hr, hre⟩
      exact ⟨r, by simp [List.filter_cons, h, hr], hre⟩

theorem forall2_map_self {α : Type} (f : α → α) (R : α → α → Prop)
    (l : List α) (h : ∀ a ∈ l, R a (f a)) : List.Forall₂ R l (l.map f) := by
  induction l with
  | nil => constructor
  | cons a tl ih =>
    exact List.Forall₂.cons (h a (by simp)) (ih fun b hb => h b (by simp [hb]))

theorem find_id_isSome_map_retitle (e ti : String) (l : List ContentRow)
    (i : Nat) (h : (l.find? (fun r => r.id = i)).isSome) :
    ((l.map (retitle e ti)).find? (fun r => r.id = i)).isSome := by
  simp only [List.find?_isSome] at h ⊢
  rcases h with ⟨x, hx, hxi⟩
  refine ⟨retitle e ti x, List.mem_map_of_mem _ hx, ?_⟩
  simpa [retitle_id] using hxi

theorem phpBasename_eq_lastSegment {s : String}
    (h : s.data.getLast? ≠ some '/') : phpBasename s = lastSegment s := by
  unfold phpBasename
  cases hrev : s.data.reverse with
  | nil =>
    have hs : s.data = [] := by simpa using congrArg List.reverse hrev
    cases s with
    | mk d => simp at hs; subst hs; rfl
  | cons c cs =>
    have hc : ¬(c = '/') := by
      intro hcc
      apply h
      rw [← List.head?_reverse, hrev, hcc]
      rfl
    rw [List.dropWhile_cons, if_neg (by simpa using hc), ← hrev,
      List.reverse_reverse]

theorem handleWebhook_eq_success (db : Db) (t : Nat) (p : WebhookPayload)
    (cid : String) (c : ContentRow) (hcid : p.contentId = some cid)
    (hres : resolveContent db cid = some c) :
    handleWebhook "POST" (some p) t db =
      ({ db with
          grades := db.grades ++ [insertedGrade p c db.nextGradeId t],
          nextGradeId := db.nextGradeId + 1 },
       .saved cid (percentage (extractRaw p) (extractMax p))) := by
  simp [handleWebhook, hcid, hres, percentage]

theorem handleWebhook_eq_notFound (db : Db) (t : Nat) (p : WebhookPayload)
    (cid : String) (hcid : p.contentId = some cid)
    (hres : resolveContent db cid = none) :
    handleWebhook "POST" (some p) t db = (db, .contentNotFound) := by
  simp [handleWebhook, hcid, hres]

theorem scalarAsIntNullable_eq_none (s : SqlScalar) :
    scalarAsIntNullable s = none := by
  cases s <;> rfl

theorem dotnetWebhook_validated_notFound (t : Nat) (db : Db)
    (d : WebhookPayload) (cid : String) (hcid : d.contentId = some cid)
    (hne : ¬(cid = "")) :
    dotnetHandleWebhook (.ok (some d)) t db = .ok (db, .contentNotFound) := by
  simp [dotnetHandleWebhook, hcid, hne, scalarAsIntNullable_eq_none]

/-! Claim theorems -/

/-- C5: `percentage` (the guarded computation
`maxScore > 0 ? rawScore / maxScore : 0` of both webhook handlers and the
grades pages) equals `rawScore / maxScore` whenever `maxScore > 0`, and
equals `0` when `maxScore` is `0` or negative.  It is a total function on
exact rationals whose division is evaluated only under the positivity
guard, so it never divides by zero, never raises, and never yields NaN. -/
theorem percentage_safe (raw mx : ℚ) :
    (0 < mx → percentage raw mx = raw / mx) ∧
    (mx ≤ 0 → percentage raw mx = 0) ∧
    percentage raw 0 = 0 := by
  refine ⟨fun h => if_pos h, fun h => if_neg (not_lt.mpr h),
    if_neg (lt_irrefl 0)⟩

/-- C5 witness: `percentage` at the spec's example `{rawScore: 5,
maxScore: 0}` is `0`, and at a positive maximum it is the quotient. -/
theorem percentage_safe_w :
    percentage 5 0 = 0 ∧ ((0:ℚ) < 10 ∧ percentage 8 10 = 8 / 10) :=
  ⟨(percentage_safe 5 0).2.2,
   by decide,
   (percentage_safe 8 10).1 (by decide)⟩

/-- C2: a webhook delivery whose `contentId` resolves to no registered
content row is answered with 404 and the error body `"Content not found"`,
and the database — in particular the grade table — is exactly what it was
before the call. -/
theorem webhook_unknownContent (db : Db) (t : Nat) (p : WebhookPayload)
    (cid : String) (hcid : p.contentId = some cid)
    (hres : resolveContent db cid = none) :
    handleWebhook "POST" (some p) t db = (db, .contentNotFound) ∧
    (handleWebhook "POST" (some p) t db).1.grades = db.grades ∧
    WebhookResponse.status .contentNotFound = 404 ∧
    WebhookResponse.errorBody .contentNotFound = some "Content not found" := by
  refine ⟨handleWebhook_eq_notFound db t p cid hcid hres, ?_, rfl, rfl⟩
  rw [handleWebhook_eq_notFound db t p cid hcid hres]

/-- C2 witness: delivering for `"nonexistent-id"` against the one-content
database leaves it untouched and yields the 404 response. -/
theorem webhook_unknownContent_w :
    handleWebhook "POST" (some payloadUnknown) 0 dbOne =
      (dbOne, .contentNotFound) ∧
    (handleWebhook "POST" (some payloadUnknown) 0 dbOne).1.grades =
      dbOne.grades ∧
    WebhookResponse.status .contentNotFound = 404 ∧
    WebhookResponse.errorBody .contentNotFound = some "Content not found" :=
  webhook_unknownContent dbOne 0 payloadUnknown "nonexistent-id" rfl rfl

/-- C9 (implicit): when the registration callback receives an absent or
empty `contentId` query parameter, the whole database (the content table
included) is unchanged, yet the callback still sends the success page with
HTTP 200 rather than an error. -/
theorem callback_missingContentId (db : Db) (t : Nat)
    (title cidOpt : Option String) (h : cidOpt = none ∨ cidOpt = some "") :
    handleCallback cidOpt title t db = (db, 200, true) := by
  rcases h with h | h <;> subst h <;> rfl

/-- C9 witness: the empty-string `contentId` callback on the one-content
database changes nothing and responds 200 with the success page. -/
theorem callback_missingContentId_w :
    handleCallback (some "") (some "My Quiz") 7 dbOne = (dbOne, 200, true) :=
  callback_missingContentId dbOne 7 (some "My Quiz") (some "") (Or.inr rfl)

/-- C6 counterexample: "the call still succeeds" fails in the .NET
instance.  The bare payload (`userId` and `statement` absent) for content
`"abc123"` — registered, as the second conjunct shows — is answered 404
with the database unchanged, because the `ExecuteScalar() as int?` lookup
always yields null (the boxed `long` defeats the `as int?` unboxing). -/
theorem dotnetWebhook_defaultsDoNotSave :
    dotnetHandleWebhook (.ok (some payloadBare)) 3 dbOne =
      .ok (dbOne, .contentNotFound) ∧
    resolveContent dbOne "abc123" = some ⟨1, "abc123", "My Quiz", 0⟩ :=
  ⟨rfl, rfl⟩

/-- C6 (amended): on a successful PHP delivery, an absent `userId` is
stored as `"anonymous"`, an absent `statement.result.score.raw` as `0`,
and an absent `statement.result.score.max` as `100` — including when the
whole `statement` object is missing — and the PHP call still succeeds
with the `saved` acknowledgement.  In the .NET instance the same defaults
are computed, but no call ever succeeds: its broken
`ExecuteScalar() as int?` lookup makes every delivery for this payload
end rejected (400 or 404) with the grade table unchanged, so nothing is
stored. -/
theorem webhook_optionalDefaults (db : Db) (t : Nat) (p : WebhookPayload)
    (cid : String) (c : ContentRow) (hcid : p.contentId = some cid)
    (hres : resolveContent db cid = some c) :
    (∃ g : GradeRow,
      (handleWebhook "POST" (some p) t db).1.grades = db.grades ++ [g] ∧
      (handleWebhook "POST" (some p) t db).2 =
        .saved cid (percentage (extractRaw p) (extractMax p)) ∧
      (p.userId = none → g.userId = "anonymous") ∧
      ((extractScoreData p).bind XApiScore.raw = none → g.score = 0) ∧
      ((extractScoreData p).bind XApiScore.max = none → g.maxScore = 100) ∧
      (p.statement = none → g.score = 0 ∧ g.maxScore = 100)) ∧
    (∀ t2 db2 db3 resp,
      dotnetHandleWebhook (.ok (some p)) t2 db2 = .ok (db3, resp) →
      db3.grades = db2.grades ∧
      (resp = .invalidPayload ∨ resp = .contentNotFound)) := by
  constructor
  · refine ⟨insertedGrade p c db.nextGradeId t, ?_, ?_, ?_, ?_, ?_, ?_⟩
    · rw [handleWebhook_eq_success db t p cid c hcid hres]
    · rw [handleWebhook_eq_success db t p cid c hcid hres]
    · intro h; simp [insertedGrade, extractUserId, h]
    · intro h; simp [insertedGrade, extractRaw, h]
    · intro h; simp [insertedGrade, extractMax, h]
    · intro h
      constructor <;>
        simp [insertedGrade, extractRaw, extractMax, extractScoreData,
          extractResult, h]
  · intro t2 db2 db3 resp h
    by_cases hne : cid = ""
    · subst hne
      simp [dotnetHandleWebhook, hcid] at h
      exact ⟨by rw [← h.1], Or.inl h.2.symm⟩
    · rw [dotnetWebhook_validated_notFound t2 db2 p cid hcid hne] at h
      simp at h
      exact ⟨by rw [← h.1], Or.inr h.2.symm⟩

/-- C6 witness: the bare payload (`contentId` only) against the one-content
database stores `"anonymous"`, `0` and `100` through the PHP handler,
while the .NET handler stores nothing for it. -/
theorem webhook_optionalDefaults_w :
    (∃ g : GradeRow,
      (handleWebhook "POST" (some payloadBare) 3 dbOne).1.grades =
        dbOne.grades ++ [g] ∧
      (handleWebhook "POST" (some payloadBare) 3 dbOne).2 =
        .saved "abc123"
          (percentage (extractRaw payloadBare) (extractMax payloadBare)) ∧
      (payloadBare.userId = none → g.userId = "anonymous") ∧
      ((extractScoreData payloadBare).bind XApiScore.raw = none →
        g.score = 0) ∧
      ((extractScoreData payloadBare).bind XApiScore.max = none →
        g.maxScore = 100) ∧
      (payloadBare.statement = none → g.score = 0 ∧ g.maxScore = 100)) ∧
    (∀ t2 db2 db3 resp,
      dotnetHandleWebhook (.ok (some payloadBare)) t2 db2 =
        .ok (db3, resp) →
      db3.grades = db2.grades ∧
      (resp = .invalidPayload ∨ resp = .contentNotFound)) :=
  webhook_optionalDefaults dbOne 3 payloadBare "abc123"
    ⟨1, "abc123", "My Quiz", 0⟩ rfl rfl

/-- C7: the stored verb is `basename` of `statement.verb.id` — for a URI
not ending in a slash this is exactly the last path segment, and the
spec's example `"http://adlnet.gov/expapi/verbs/completed"` is stored as
`"completed"` — and an absent verb id is stored as the empty string.  The
normalization is a total function, so it never throws. -/
theorem webhook_verbNormalization (db : Db) (t : Nat) (p : WebhookPayload)
    (cid : String) (c : ContentRow) (hcid : p.contentId = some cid)
    (hres : resolveContent db cid = some c) :
    ∃ g : GradeRow,
      (handleWebhook "POST" (some p) t db).1.grades = db.grades ++ [g] ∧
      g.xapiVerb = phpBasename ((extractVerbId p).getD "") ∧
      (extractVerbId p = none → g.xapiVerb = "") ∧
      (∀ s, extractVerbId p = some s → s.data.getLast? ≠ some '/' →
        g.xapiVerb = lastSegment s) ∧
      phpBasename "http://adlnet.gov/expapi/verbs/completed" = "completed" := by
  refine ⟨insertedGrade p c db.nextGradeId t, ?_, rfl, ?_, ?_, by decide⟩
  · rw [handleWebhook_eq_success db t p cid c hcid hres]
  · intro h
    simp [insertedGrade, h]
    rfl
  · intro s hs hslash
    simp [insertedGrade, hs]
    exact phpBasename_eq_lastSegment hslash

/-- C7 witness: the end-to-end payload stores verb `"completed"`. -/
theorem webhook_verbNormalization_w :
    ∃ g : GradeRow,
      (handleWebhook "POST" (some payloadFull) 5 dbOne).1.grades =
        dbOne.grades ++ [g] ∧
      g.xapiVerb = phpBasename ((extractVerbId payloadFull).getD "") ∧
      (extractVerbId payloadFull = none → g.xapiVerb = "") ∧
      (∀ s, extractVerbId payloadFull = some s →
        s.data.getLast? ≠ some '/' → g.xapiVerb = lastSegment s) ∧
      phpBasename "http://adlnet.gov/expapi/verbs/completed" = "completed" :=
  webhook_verbNormalization dbOne 5 payloadFull "abc123"
    ⟨1, "abc123", "My Quiz", 0⟩ rfl rfl

/-- C8 counterexample: the computed score is not clamped to `0..1`.  With
content `"abc123"` registered, the payload with `raw = 2, max = 1` is
acknowledged with `{"status":"saved","contentId":"abc123","score":2}`,
and `2` does not lie in `0..1`. -/
theorem webhook_scoreNotClamped :
    (handleWebhook "POST" (some payloadOverMax) 5 dbOne).2 =
      WebhookResponse.saved "abc123" 2 ∧ ¬((2:ℚ) ≤ 1) := by
  constructor
  · rw [handleWebhook_eq_success dbOne 5 payloadOverMax "abc123"
      ⟨1, "abc123", "My Quiz", 0⟩ rfl rfl]
    norm_num [percentage, extractRaw, extractMax, extractScoreData,
      extractResult, payloadOverMax]
  · norm_num

/-- C8 (amended): every successful delivery is answered 200 with
`{"status":"saved","contentId":<echoed unchanged>,"score":<the computed
percentage, 0 when maxScore ≤ 0>}`; the score lies in `0..1` whenever
`0 ≤ rawScore ≤ maxScore`, but out-of-range payloads are not clamped. -/
theorem webhook_successResponse (db : Db) (t : Nat) (p : WebhookPayload)
    (cid : String) (c : ContentRow) (hcid : p.contentId = some cid)
    (hres : resolveContent db cid = some c) :
    (handleWebhook "POST" (some p) t db).2 =
      .saved cid (percentage (extractRaw p) (extractMax p)) ∧
    WebhookResponse.status ((handleWebhook "POST" (some p) t db).2) = 200 ∧
    (extractMax p ≤ 0 → percentage (extractRaw p) (extractMax p) = 0) ∧
    (0 ≤ extractRaw p → extractRaw p ≤ extractMax p →
      0 ≤ percentage (extractRaw p) (extractMax p) ∧
      percentage (extractRaw p) (extractMax p) ≤ 1) := by
  have hs := handleWebhook_eq_success db t p cid c hcid hres
  refine ⟨by rw [hs], by rw [hs]; rfl,
    fun h => if_neg (not_lt.mpr h), fun h1 h2 => ?_⟩
  unfold percentage
  split
  · next hpos =>
    exact ⟨div_nonneg h1 (le_of_lt hpos), (div_le_one hpos).mpr h2⟩
  · exact ⟨le_refl 0, by norm_num⟩

/-- C8 witness: the end-to-end payload (raw 8, max 10) is acknowledged
with status 200 and the percentage, which lies in `0..1`. -/
theorem webhook_successResponse_w :
    (handleWebhook "POST" (some payloadFull) 5 dbOne).2 =
      .saved "abc123"
        (percentage (extractRaw payloadFull) (extractMax payloadFull)) ∧
    WebhookResponse.status
      ((handleWebhook "POST" (some payloadFull) 5 dbOne).2) = 200 ∧
    (extractMax payloadFull ≤ 0 →
      percentage (extractRaw payloadFull) (extractMax payloadFull) = 0) ∧
    (0 ≤ extractRaw payloadFull →
      extractRaw payloadFull ≤ extractMax payloadFull →
      0 ≤ percentage (extractRaw payloadFull) (extractMax payloadFull) ∧
      percentage (extractRaw payloadFull) (extractMax payloadFull) ≤ 1) :=
  webhook_successResponse dbOne 5 payloadFull "abc123"
    ⟨1, "abc123", "My Quiz", 0⟩ rfl rfl

/-- C3 counterexample: in the .NET instance a malformed JSON body makes
`JsonSerializer.Deserialize` throw, and the handler — which contains no
try/catch — lets the exception escape instead of returning the 400
response; at the concrete malformed input the handler's result is the
escaped error, not `(db, invalidPayload)`. -/
theorem dotnetWebhook_malformedRaises :
    dotnetHandleWebhook (Except.error JsonError.malformed) 5 dbOne =
      Except.error JsonError.malformed ∧
    (Except.error JsonError.malformed :
        Except JsonError (Db × WebhookResponse)) ≠
      Except.ok (dbOne, WebhookResponse.invalidPayload) :=
  ⟨rfl, by simp⟩

/-- C3 (amended): the PHP handler answers every malformed-JSON body
(`json_decode` falsy) and every body lacking `contentId` with 400
`{"error":"Invalid payload"}` and leaves the database untouched; the .NET
handler does the same for a body deserializing to null or lacking
`contentId`, but a malformed JSON body raises a `JsonException` that
escapes the handler (the framework, not the handler, maps it to a 500) —
in every one of these cases no GradeRecord is written. -/
theorem webhook_invalidPayload :
    (∀ t db, handleWebhook "POST" none t db = (db, .invalidPayload)) ∧
    (∀ t db (p : WebhookPayload), p.contentId = none →
      handleWebhook "POST" (some p) t db = (db, .invalidPayload)) ∧
    WebhookResponse.status .invalidPayload = 400 ∧
    WebhookResponse.errorBody .invalidPayload = some "Invalid payload" ∧
    (∀ e t db, dotnetHandleWebhook (.error e) t db = .error e) ∧
    (∀ t db, dotnetHandleWebhook (.ok none) t db = .ok (db, .invalidPayload)) ∧
    (∀ t db (p : WebhookPayload), p.contentId = none →
      dotnetHandleWebhook (.ok (some p)) t db = .ok (db, .invalidPayload)) := by
  refine ⟨fun t db => rfl, fun t db p hp => ?_, rfl, rfl,
    fun e t db => rfl, fun t db => rfl, fun t db p hp => ?_⟩
  · simp [handleWebhook, hp]
  · simp [dotnetHandleWebhook, hp]

/-- C3 witness: the payload missing its `contentId` field gets the 400
response from both handlers and the database is unchanged. -/
theorem webhook_invalidPayload_w :
    handleWebhook "POST" (some payloadNoContent) 0 dbOne =
      (dbOne, .invalidPayload) ∧
    dotnetHandleWebhook (.ok (some payloadNoContent)) 0 dbOne =
      .ok (dbOne, .invalidPayload) :=
  ⟨webhook_invalidPayload.2.1 0 dbOne payloadNoContent rfl,
   webhook_invalidPayload.2.2.2.2.2.2 0 dbOne payloadNoContent rfl⟩

theorem upsert_content_conflict (db : Db) (e ti : String) (t : Nat)
    (hany : db.content.any (fun r => r.h5pId = e) = true) :
    (upsertContent e ti t db).content = db.content.map (retitle e ti) := by
  unfold upsertContent
  rw [if_pos hany]

theorem countContent_upsert (db : Db) (e ti : String) (t : Nat)
    (hu : db.uniqueContentIds) :
    Db.countContent (upsertContent e ti t db) e = 1 := by
  unfold Db.countContent upsertContent
  by_cases hany : db.content.any (fun r => r.h5pId = e) = true
  · rw [if_pos hany]
    dsimp only
    rw [filter_map_retitle]
    rcases filter_singleton_of_nodup e db.content hu hany with ⟨r, hr, _⟩
    rw [hr]
    rfl
  · rw [if_neg hany]
    dsimp only
    have hnil : db.content.filter (fun r => r.h5pId = e) = [] := by
      rw [List.filter_eq_nil_iff]
      intro b hb hbe
      exact hany (List.any_eq_true.mpr ⟨b, hb, hbe⟩)
    rw [List.filter_append, hnil]
    simp

theorem unique_upsert (db : Db) (e ti : String) (t : Nat)
    (hu : db.uniqueContentIds) :
    (upsertContent e ti t db).uniqueContentIds := by
  unfold Db.uniqueContentIds upsertContent
  by_cases hany : db.content.any (fun r => r.h5pId = e) = true
  · rw [if_pos hany]
    dsimp only
    rw [map_retitle_h5pId]
    exact hu
  · rw [if_neg hany]
    dsimp only
    have he : e ∉ db.content.map ContentRow.h5pId := by
      intro hmem
      rcases List.mem_map.mp hmem with ⟨r, hr, hre⟩
      exact hany (List.any_eq_true.mpr ⟨r, hr, by simp [hre]⟩)
    rw [List.map_append]
    refine List.Nodup.append hu (List.nodup_singleton e) ?_
    intro a ha hae
    simp only [List.map_cons, List.map_nil, List.mem_singleton] at hae
    subst hae
    exact he ha

theorem any_of_countContent_one (db : Db) (e : String)
    (h : Db.countContent db e = 1) :
    db.content.any (fun r => r.h5pId = e) = true := by
  by_contra hany
  have hnil : db.content.filter (fun r => r.h5pId = e) = [] := by
    rw [List.filter_eq_nil_iff]
    intro b hb hbe
    exact hany (List.any_eq_true.mpr ⟨b, hb, hbe⟩)
  unfold Db.countContent at h
  rw [hnil] at h
  simp at h

/-- C1: registering the same external content id twice is an idempotent
upsert — the first call inserts, the second updates the title in place —
so afterwards exactly one `h5p_content` row carries that id, the `UNIQUE`
constraint is preserved, and the surviving row holds the latest title.
The upsert is a single atomic SQLite statement, modelled as one
transition. -/
theorem registerOrUpdate_idempotent (db : Db) (extId t1 t2 : String)
    (time1 time2 : Nat) (hu : db.uniqueContentIds) :
    Db.countContent (upsertContent extId t1 time1 db) extId = 1 ∧
    Db.countContent
      (upsertContent extId t2 time2 (upsertContent extId t1 time1 db))
      extId = 1 ∧
    (upsertContent extId t2 time2
      (upsertContent extId t1 time1 db)).uniqueContentIds ∧
    ∃ r : ContentRow,
      (upsertContent extId t2 time2
          (upsertContent extId t1 time1 db)).content.filter
        (fun row => row.h5pId = extId) = [r] ∧
      r.title = t2 ∧ r.h5pId = extId := by
  have hc1 := countContent_upsert db extId t1 time1 hu
  have hu1 := unique_upsert db extId t1 time1 hu
  have hc2 := countContent_upsert _ extId t2 time2 hu1
  have hu2 := unique_upsert _ extId t2 time2 hu1
  refine ⟨hc1, hc2, hu2, ?_⟩
  have hany1 := any_of_countContent_one _ extId hc1
  rcases filter_singleton_of_nodup extId
    (upsertContent extId t1 time1 db).content hu1 hany1 with ⟨r1, hr1, hre1⟩
  have hcnt : (upsertContent extId t2 time2
      (upsertContent extId t1 time1 db)).content =
      (upsertContent extId t1 time1 db).content.map (retitle extId t2) :=
    upsert_content_conflict _ extId t2 time2 hany1
  refine ⟨retitle extId t2 r1, ?_, ?_, ?_⟩
  · rw [hcnt, filter_map_retitle, hr1]
    rfl
  · unfold retitle
    rw [if_pos hre1]
  · rw [retitle_h5pId]
    exact hre1

/-- C1 witness: registering `"ext-1"` as `"Quiz A"` and again as
`"Quiz B"` from the empty database leaves exactly one row for `"ext-1"`,
carrying the second title. -/
theorem registerOrUpdate_idempotent_w :
    Db.countContent (upsertContent "ext-1" "Quiz A" 1 Db.empty) "ext-1" = 1 ∧
    Db.countContent
      (upsertContent "ext-1" "Quiz B" 2
        (upsertContent "ext-1" "Quiz A" 1 Db.empty)) "ext-1" = 1 ∧
    (upsertContent "ext-1" "Quiz B" 2
      (upsertContent "ext-1" "Quiz A" 1 Db.empty)).uniqueContentIds ∧
    ∃ r : ContentRow,
      (upsertContent "ext-1" "Quiz B" 2
          (upsertContent "ext-1" "Quiz A" 1 Db.empty)).content.filter
        (fun row => row.h5pId = "ext-1") = [r] ∧
      r.title = "Quiz B" ∧ r.h5pId = "ext-1" :=
  registerOrUpdate_idempotent Db.empty "ext-1" "Quiz A" "Quiz B" 1 2
    (by decide)

/-- C10 (implicit): when the upsert hits an existing row, only that row's
`title` changes — every row keeps its `id`, `h5pId` and `createdAt`, rows
for other external ids are exactly unchanged, the grade table and the id
counter are untouched, and every local id that resolved before still
resolves, so grade rows referencing it keep resolving. -/
theorem upsert_conflictFrame (db : Db) (extId ti : String) (t : Nat)
    (hex : db.content.any (fun r => r.h5pId = extId) = true) :
    (upsertContent extId ti t db).grades = db.grades ∧
    (upsertContent extId ti t db).nextContentId = db.nextContentId ∧
    List.Forall₂ (fun old new : ContentRow =>
        new.id = old.id ∧ new.h5pId = old.h5pId ∧
        new.createdAt = old.createdAt ∧
        (old.h5pId ≠ extId → new = old) ∧
        (old.h5pId = extId → new.title = ti))
      db.content (upsertContent extId ti t db).content ∧
    (∀ i, (contentById db i).isSome →
      (contentById (upsertContent extId ti t db) i).isSome) := by
  have hc : (upsertContent extId ti t db).content =
      db.content.map (retitle extId ti) := by
    simp [upsertContent, hex]
  refine ⟨by simp [upsertContent, hex], by simp [upsertContent, hex], ?_, ?_⟩
  · rw [hc]
    apply forall2_map_self
    intro a _
    refine ⟨retitle_id _ _ _, retitle_h5pId _ _ _, retitle_createdAt _ _ _,
      ?_, ?_⟩
    · intro h
      unfold retitle
      rw [if_neg h]
    · intro h
      unfold retitle
      rw [if_pos h]
  · intro i hi
    unfold contentById at hi ⊢
    rw [hc]
    exact find_id_isSome_map_retitle _ _ _ _ hi

/-- C10 witness: retitling the registered content `"abc123"` keeps its
local id resolvable and changes nothing but the title. -/
theorem upsert_conflictFrame_w :
    (upsertContent "abc123" "Renamed" 9 dbOne).grades = dbOne.grades ∧
    (upsertContent "abc123" "Renamed" 9 dbOne).nextContentId =
      dbOne.nextContentId ∧
    List.Forall₂ (fun old new : ContentRow =>
        new.id = old.id ∧ new.h5pId = old.h5pId ∧
        new.createdAt = old.createdAt ∧
        (old.h5pId ≠ "abc123" → new = old) ∧
        (old.h5pId = "abc123" → new.title = "Renamed"))
      dbOne.content (upsertContent "abc123" "Renamed" 9 dbOne).content ∧
    (∀ i, (contentById dbOne i).isSome →
      (contentById (upsertContent "abc123" "Renamed" 9 dbOne) i).isSome) :=
  upsert_conflictFrame dbOne "abc123" "Renamed" 9 (by decide)

/-- C4 counterexample: two identical deliveries do not "both succeed" in
the .NET instance — no delivery ever succeeds there.  Even with content
`"abc123"` registered (second conjunct), the end-to-end payload is
answered 404 with the database unchanged, because
`ExecuteScalar() as int?` always yields null (the boxed `long` defeats
the `as int?` unboxing), so the insert is dead code. -/
theorem dotnetWebhook_neverSucceeds :
    dotnetHandleWebhook (.ok (some payloadFull)) 5 dbOne =
      .ok (dbOne, .contentNotFound) ∧
    resolveContent dbOne "abc123" = some ⟨1, "abc123", "My Quiz", 0⟩ :=
  ⟨rfl, rfl⟩

/-- C4 (amended): grade rows are append-only.  The upsert and the
callback never touch the grade table; every PHP webhook call leaves the
existing grade rows as a prefix, only ever appending; two PHP deliveries
of the identical payload both succeed and append two distinct rows with
strictly increasing ids and their own timestamps, the second leaving the
first in place.  The .NET handler never updates, deletes — or even
appends — a grade row: its broken `ExecuteScalar() as int?` lookup sends
every validated delivery into the 404 branch, so its insert is dead
code. -/
theorem gradeRows_appendOnly :
    (∀ e ti t db, (upsertContent e ti t db).grades = db.grades) ∧
    (∀ cid ti t db, (handleCallback cid ti t db).1.grades = db.grades) ∧
    (∀ m b t db, ∃ tail,
      (handleWebhook m b t db).1.grades = db.grades ++ tail) ∧
    (∀ t db (d : WebhookPayload) cid, d.contentId = some cid →
      ¬(cid = "") →
      dotnetHandleWebhook (.ok (some d)) t db = .ok (db, .contentNotFound)) ∧
    (∀ parsed t db db2 resp,
      dotnetHandleWebhook parsed t db = Except.ok (db2, resp) →
      db2.grades = db.grades) ∧
    (∀ db t1 t2 (p : WebhookPayload) cid c, p.contentId = some cid →
      resolveContent db cid = some c →
      ∃ r1 r2 : GradeRow,
        (handleWebhook "POST" (some p) t1 db).1.grades = db.grades ++ [r1] ∧
        (handleWebhook "POST" (some p) t2
          (handleWebhook "POST" (some p) t1 db).1).1.grades =
            db.grades ++ [r1, r2] ∧
        r1.id = db.nextGradeId ∧ r2.id = db.nextGradeId + 1 ∧
        r1.id < r2.id ∧ r1 ≠ r2 ∧ r1.createdAt = t1 ∧ r2.createdAt = t2) := by
  have hupsert : ∀ e ti t db, (upsertContent e ti t db).grades = db.grades := by
    intro e ti t db
    unfold upsertContent
    split <;> rfl
  refine ⟨hupsert, ?_, ?_, dotnetWebhook_validated_notFound, ?_, ?_⟩
  · intro cid ti t db
    unfold handleCallback
    match cid with
    | none => rfl
    | some s =>
      dsimp only
      split
      · exact hupsert s (ti.getD "Untitled") t db
      · rfl
  · intro m b t db
    unfold handleWebhook
    split
    · exact ⟨[], by simp⟩
    · match b with
      | none => exact ⟨[], by simp⟩
      | some data =>
        dsimp only
        match data.contentId with
        | none => exact ⟨[], by simp⟩
        | some cid =>
          dsimp only
          match resolveContent db cid with
          | none => exact ⟨[], by simp⟩
          | some c => exact ⟨[insertedGrade data c db.nextGradeId t], rfl⟩
  · intro parsed t db db2 resp h
    match parsed with
    | .error e => simp [dotnetHandleWebhook] at h
    | .ok none =>
      simp [dotnetHandleWebhook] at h
      rw [← h.1]
    | .ok (some d) =>
      match hcid : d.contentId with
      | none =>
        unfold dotnetHandleWebhook at h
        dsimp only at h
        rw [hcid] at h
        simp at h
        rw [← h.1]
      | some cid =>
        by_cases hemp : cid = ""
        · unfold dotnetHandleWebhook at h
          dsimp only at h
          rw [hcid] at h
          dsimp only at h
          rw [if_pos hemp] at h
          simp at h
          rw [← h.1]
        · rw [dotnetWebhook_validated_notFound t db d cid hcid hemp] at h
          simp at h
          rw [← h.1]
  · intro db t1 t2 p cid c hcid hres
    have h1 := handleWebhook_eq_success db t1 p cid c hcid hres
    have h2 := handleWebhook_eq_success
      { db with grades := db.grades ++ [insertedGrade p c db.nextGradeId t1],
                nextGradeId := db.nextGradeId + 1 } t2 p cid c hcid hres
    refine ⟨insertedGrade p c db.nextGradeId t1,
      insertedGrade p c (db.nextGradeId + 1) t2, by rw [h1], ?_, rfl, rfl,
      Nat.lt_succ_self _, ?_, rfl, rfl⟩
    · rw [h1, h2]
      simp
    · intro heq
      have := congrArg GradeRow.id heq
      simp [insertedGrade] at this

/-- C4 witness: two PHP deliveries of the end-to-end payload against the
one-content database append two distinct rows with ids 1 and 2. -/
theorem gradeRows_appendOnly_w :
    ∃ r1 r2 : GradeRow,
      (handleWebhook "POST" (some payloadFull) 5 dbOne).1.grades =
        dbOne.grades ++ [r1] ∧
      (handleWebhook "POST" (some payloadFull) 6
        (handleWebhook "POST" (some payloadFull) 5 dbOne).1).1.grades =
          dbOne.grades ++ [r1, r2] ∧
      r1.id = dbOne.nextGradeId ∧ r2.id = dbOne.nextGradeId + 1 ∧
      r1.id < r2.id ∧ r1 ≠ r2 ∧ r1.createdAt = 5 ∧ r2.createdAt = 6 :=
  gradeRows_appendOnly.2.2.2.2.2 dbOne 5 6 payloadFull "abc123"
    ⟨1, "abc123", "My Quiz", 0⟩ rfl rfl

end H5P

